import Mathlib

/-!
# game::ui (source/game/ui.h)

A shallow embedding of the pane type tag, the fixed record layouts and the
`WidgetPos` flag state machine of `source/game/ui.h`, with the properties of
the specification stated and settled over it.

Conventions.
* A `float` is an IEEE-754 binary32 value, kept as its three bit fields; the
  C++ `==` on floats is `F32.feq` (a NaN equals nothing, the two zeros are
  equal).
* A `u32` flag word is a `Nat` reduced modulo `2^32` by every writing
  operation; bit positions are `Fin 32`.
-/

namespace game.ui

/-! ## Floats -/

/-- An IEEE-754 binary32 value: sign bit, 8-bit biased exponent, 23-bit
mantissa. -/
structure F32 where
  sign : Bool
  exponent : Fin 256
  mantissa : Fin 8388608

namespace F32

/-- The literal `0.0f` (bit pattern 0x00000000). -/
def zero : F32 := ⟨false, 0, 0⟩

/-- The literal `1.0f` (bit pattern 0x3F800000). -/
def one : F32 := ⟨false, 127, 0⟩

/-- The literal `0.5f` (bit pattern 0x3F000000). -/
def half : F32 := ⟨false, 126, 0⟩

/-- A quiet NaN (bit pattern 0x7FC00000). -/
def qnan : F32 := ⟨false, 255, 4194304⟩

/-- All exponent bits set and a non-zero mantissa. -/
def isNaN (a : F32) : Bool := a.exponent.val == 255 && a.mantissa.val != 0

/-- Positive or negative zero. -/
def isZero (a : F32) : Bool := a.exponent.val == 0 && a.mantissa.val == 0

/-- The bit patterns coincide. -/
def sameBits (a b : F32) : Bool :=
  a.sign == b.sign && a.exponent.val == b.exponent.val && a.mantissa.val == b.mantissa.val

/-- The C++ `operator==` on `float`: false as soon as an operand is a NaN,
true on two zeros of any sign, and otherwise equality of the bit patterns. -/
def feq (a b : F32) : Bool :=
  !a.isNaN && !b.isNaN && ((a.isZero && b.isZero) || a.sameBits b)

end F32

instance : BEq F32 := ⟨F32.feq⟩

/-! ## Vectors (common/types.h) -/

/-- Modelled from the spec: `Vec2` of common/types.h, two floats (8 bytes). -/
structure Vec2 where
  x : F32
  y : F32

/-- Modelled from the spec: `Vec3` of common/types.h, three floats (12 bytes),
"translation (3 components), scale (3 components)". -/
structure Vec3 where
  x : F32
  y : F32
  z : F32

/-- Modelled from the spec: `Vec4` of common/types.h, four floats (16 bytes),
"a 4-component color (rgb + opacity in the 4th slot)". -/
structure Vec4 where
  c0 : F32
  c1 : F32
  c2 : F32
  c3 : F32

namespace Vec4

/-- Read access `vec(i)`. -/
def get (v : Vec4) (i : Fin 4) : F32 :=
  match i with
  | 0 => v.c0
  | 1 => v.c1
  | 2 => v.c2
  | 3 => v.c3

/-- Write access `vec(i) = a`. -/
def set (v : Vec4) (i : Fin 4) (a : F32) : Vec4 :=
  match i with
  | 0 => { v with c0 := a }
  | 1 => { v with c1 := a }
  | 2 => { v with c2 := a }
  | 3 => { v with c3 := a }

end Vec4

/-! ## PaneType -/

/-- The enumeration `enum class PaneType : u16`. -/
inductive PaneType where
  | Null
  | Type1
  | Rect
  | Text
  | Pane
  | PaneEx
  | Pane2
  | Pane2Ex
  deriving DecidableEq, Repr

namespace PaneType

/-- The enumerator values of `PaneType`, as declared. -/
def toU16 : PaneType → Nat
  | Null => 0
  | Type1 => 1
  | Rect => 2
  | Text => 3
  | Pane => 4
  | PaneEx => 5
  | Pane2 => 6
  | Pane2Ex => 7

/-- The kind named by a 2-byte tag: the enumerator with that value, if there
is one. -/
def ofU16 (n : Nat) : Option PaneType :=
  if n = 0 then some Null
  else if n = 1 then some Type1
  else if n = 2 then some Rect
  else if n = 3 then some Text
  else if n = 4 then some Pane
  else if n = 5 then some PaneEx
  else if n = 6 then some Pane2
  else if n = 7 then some Pane2Ex
  else none

end PaneType

/-! ## WidgetPos -/

/-- The enumeration `enum class WidgetPos::Flag : u32`. -/
inductive Flag where
  | Visible
  | DefaultTranslateX
  | DefaultTranslateY
  | DefaultTranslateZ
  | DefaultScaleX
  | DefaultScaleY
  | DefaultScaleZ
  | DefaultRotateX
  | DefaultRotateY
  | DefaultRotateZ
  | Visible2
  | DefaultOpacity
  deriving DecidableEq, Repr

namespace Flag

/-- The enumerator values of `WidgetPos::Flag`, as declared. -/
def val : Flag → Nat
  | Visible => 1
  | DefaultTranslateX => 0x100
  | DefaultTranslateY => 0x200
  | DefaultTranslateZ => 0x400
  | DefaultScaleX => 0x800
  | DefaultScaleY => 0x1000
  | DefaultScaleZ => 0x2000
  | DefaultRotateX => 0x4000
  | DefaultRotateY => 0x8000
  | DefaultRotateZ => 0x10000
  | Visible2 => 0x20000
  | DefaultOpacity => 0x4000000

/-- The position of the single bit of each enumerator. -/
def bit : Flag → Fin 32
  | Visible => 0
  | DefaultTranslateX => 8
  | DefaultTranslateY => 9
  | DefaultTranslateZ => 10
  | DefaultScaleX => 11
  | DefaultScaleY => 12
  | DefaultScaleZ => 13
  | DefaultRotateX => 14
  | DefaultRotateY => 15
  | DefaultRotateZ => 16
  | Visible2 => 17
  | DefaultOpacity => 26

end Flag

/-- The 32-bit complement `~x`. -/
def u32Not (x : Nat) : Nat := (x ^^^ 0xFFFFFFFF) % 2 ^ 32

/-- Modelled from the spec: `rst::Flags<Flag>` of common/flags.h, a "32-bit
flag set": one `u32` word with one bit per enumerator. -/
structure Flags where
  flags : Nat

namespace Flags

/-- Member `Set(flag)`: `flags |= flag`. -/
def Set (f : Flags) (v : Flag) : Flags := ⟨(f.flags ||| v.val) % 2 ^ 32⟩

/-- Member `Clear(flag)`: `flags &= ~flag`. -/
def Clear (f : Flags) (v : Flag) : Flags := ⟨(f.flags &&& u32Not v.val) % 2 ^ 32⟩

/-- Member `Set(flag, condition)`: set the bit when the condition holds, clear it
otherwise. -/
def SetTo (f : Flags) (v : Flag) (condition : Bool) : Flags :=
  if condition then f.Set v else f.Clear v

/-- Member `IsSet(flag)`: `(flags & flag) != 0`. -/
def IsSet (f : Flags) (v : Flag) : Bool := (f.flags &&& v.val) != 0

/-- Bit `i` of the word. -/
def testBit (f : Flags) (i : Fin 32) : Bool := f.flags.testBit i.val

end Flags

/-- The record `struct WidgetPos`. -/
structure WidgetPos where
  translate : Vec3
  scale : Vec3
  field_18 : Vec3
  field_24 : Vec2
  field_2C : Vec2
  field_34 : F32
  color : Vec4
  flags : Flags
  active_flags : Flags

namespace WidgetPos

/-- Member `ValueChanged(flag, value, default_value)`: mark the axis as touched and
record whether the value compares equal to the default. -/
def ValueChanged {T : Type} [BEq T] (s : WidgetPos) (flag : Flag) (value default_value : T) :
    WidgetPos :=
  let s1 := { s with flags := s.flags.Set flag }
  { s1 with active_flags := s1.active_flags.SetTo flag (value == default_value) }

/-- Member `SetVisible(visible)`. -/
def SetVisible (s : WidgetPos) (visible : Bool) : WidgetPos :=
  if (s.flags.IsSet Flag.Visible == visible) = true then s
  else
    let s1 := { s with flags := s.flags.SetTo Flag.Visible visible }
    s1.ValueChanged Flag.Visible2 visible true

/-- Member `SetOpacity(opacity)`. -/
def SetOpacity (s : WidgetPos) (opacity : F32) : WidgetPos :=
  if (s.color.get 3 == opacity) = true then s
  else
    let s1 := { s with color := s.color.set 3 opacity }
    s1.ValueChanged Flag.DefaultOpacity opacity F32.one

/-- Member `TranslateChanged()`. -/
def TranslateChanged (s : WidgetPos) : WidgetPos :=
  let s1 := s.ValueChanged Flag.DefaultTranslateX s.translate.x F32.one
  let s2 := s1.ValueChanged Flag.DefaultTranslateY s1.translate.y F32.one
  s2.ValueChanged Flag.DefaultTranslateZ s2.translate.z F32.one

/-- Member `ScaleChanged()`. -/
def ScaleChanged (s : WidgetPos) : WidgetPos :=
  let s1 := s.ValueChanged Flag.DefaultScaleX s.scale.x F32.one
  let s2 := s1.ValueChanged Flag.DefaultScaleY s1.scale.y F32.one
  s2.ValueChanged Flag.DefaultScaleZ s2.scale.z F32.one

/-- External code writing the translate vector directly (`pos.translate = v`). -/
def writeTranslate (s : WidgetPos) (v : Vec3) : WidgetPos := { s with translate := v }


/-- A state in which the widget is visible and fully opaque, the translation is
zero and the scale is one, no axis has been touched yet, and the at-default
bits of visibility and opacity are set. -/
def shownAtRest : WidgetPos where
  translate := ⟨F32.zero, F32.zero, F32.zero⟩
  scale := ⟨F32.one, F32.one, F32.one⟩
  field_18 := ⟨F32.zero, F32.zero, F32.zero⟩
  field_24 := ⟨F32.zero, F32.zero⟩
  field_2C := ⟨F32.zero, F32.zero⟩
  field_34 := F32.zero
  color := ⟨F32.one, F32.one, F32.one, F32.one⟩
  flags := ⟨0x1⟩
  active_flags := ⟨0x4020000⟩

end WidgetPos

/-- One call of a `WidgetPos` member function, with its argument. -/
inductive Call where
  | SetVisible (visible : Bool)
  | SetOpacity (opacity : F32)
  | TranslateChanged
  | ScaleChanged

/-- The call is one of the two setters `SetVisible`, `SetOpacity`. -/
def Call.isSetter : Call → Bool
  | Call.SetVisible _ => true
  | Call.SetOpacity _ => true
  | Call.TranslateChanged => false
  | Call.ScaleChanged => false

namespace WidgetPos

/-- The state after one call. -/
def call (s : WidgetPos) : Call → WidgetPos
  | Call.SetVisible visible => s.SetVisible visible
  | Call.SetOpacity opacity => s.SetOpacity opacity
  | Call.TranslateChanged => s.TranslateChanged
  | Call.ScaleChanged => s.ScaleChanged

/-- The state after a finite sequence of calls, first call first. -/
def run (s : WidgetPos) (cs : List Call) : WidgetPos := cs.foldl call s

/-- The two states agree on every field except `color`, `flags` and
`active_flags`. -/
def sameVectors (s t : WidgetPos) : Prop :=
  t.translate = s.translate ∧ t.scale = s.scale ∧ t.field_18 = s.field_18 ∧
    t.field_24 = s.field_24 ∧ t.field_2C = s.field_2C ∧ t.field_34 = s.field_34

/-- The at-default bits of visibility and opacity agree with the current
values. -/
def DefaultFlagsOk (s : WidgetPos) : Prop :=
  s.active_flags.IsSet Flag.Visible2 = s.flags.IsSet Flag.Visible ∧
    s.active_flags.IsSet Flag.DefaultOpacity = (s.color.get 3 == F32.one)

end WidgetPos

/-! ## Record sizes under the 32-bit layout rules of the target -/

/-- Size and alignment of an object type, in bytes. -/
structure Mem where
  size : Nat
  align : Nat

/-- The least multiple of `a` that is at least `off`. -/
def alignUp (off a : Nat) : Nat := (off + a - 1) / a * a

namespace Mem

/-- Layout of `u8`. -/
def u8 : Mem := ⟨1, 1⟩
/-- Layout of `bool`. -/
def bool : Mem := ⟨1, 1⟩
/-- Layout of `u16`. -/
def u16 : Mem := ⟨2, 2⟩
/-- Layout of `u32`. -/
def u32 : Mem := ⟨4, 4⟩
/-- Layout of `int`. -/
def int : Mem := ⟨4, 4⟩
/-- Layout of `float`. -/
def float : Mem := ⟨4, 4⟩
/-- Layout of a data pointer and of the vtable pointer. -/
def ptr : Mem := ⟨4, 4⟩

/-- Layout of `T[n]`. -/
def array (e : Mem) (n : Nat) : Mem := ⟨e.size * n, e.align⟩

/-- Place the next member after the members laid out so far: pad to the
alignment of the member, then add its size. -/
def place (acc m : Mem) : Mem := ⟨alignUp acc.size m.align + m.size, max acc.align m.align⟩

/-- Layout of a record from its members in declaration order (a base class
subobject and a vtable pointer come first), padded at the end to its own
alignment. -/
def struct (members : List Mem) : Mem :=
  let r := members.foldl place ⟨0, 1⟩
  ⟨alignUp r.size r.align, r.align⟩

end Mem

namespace layout

/-- Modelled from the spec: `Vec2` of common/types.h, two floats. -/
def Vec2 : Mem := Mem.struct [Mem.float, Mem.float]
/-- Modelled from the spec: `Vec3` of common/types.h, three floats. -/
def Vec3 : Mem := Mem.struct [Mem.float, Mem.float, Mem.float]
/-- Modelled from the spec: `Vec4` of common/types.h, four floats. -/
def Vec4 : Mem := Mem.struct [Mem.float, Mem.float, Mem.float, Mem.float]
/-- Modelled from the spec: `Matrix34` of common/types.h, 3 rows of 4 floats. -/
def Matrix34 : Mem := Mem.struct [Mem.array (Mem.array Mem.float 4) 3]
/-- Modelled from the spec: `Matrix23` of common/types.h, 2 rows of 3 floats. -/
def Matrix23 : Mem := Mem.struct [Mem.array (Mem.array Mem.float 3) 2]
/-- Modelled from the spec: `rst::Flags<Flag>` of common/flags.h, one word of
the underlying type `u32`. -/
def Flags : Mem := Mem.struct [Mem.u32]

/-- Record `template <typename T> struct Array`: `T* data; int size;`. -/
def Array : Mem := Mem.struct [Mem.ptr, Mem.int]

/-- Record `class Pane`: vtable pointer, `type`, `name`. -/
def Pane : Mem := Mem.struct [Mem.ptr, Mem.u16, Mem.ptr]
/-- Record `class PaneNull : public Pane`. -/
def PaneNull : Mem := Mem.struct [Pane, Vec3]
/-- Record `class Pane1 : public Pane`. -/
def Pane1 : Mem := Mem.struct [Pane, Vec3, Mem.float]
/-- Record `class PaneRect : public Pane`. -/
def PaneRect : Mem := Mem.struct [Pane, Vec3, Mem.float, Mem.float]
/-- Record `class TextSprite : public Pane`. -/
def TextSprite : Mem := Mem.struct [Pane, Mem.array Mem.u8 0x300]
/-- Record `struct PaneExArg`. -/
def PaneExArg : Mem :=
  Mem.struct [Vec3, Mem.float, Mem.float, Vec2, Vec2, Mem.u16, Mem.u16, Mem.array Vec4 4]
/-- Record `class PaneEx : public Pane`. -/
def PaneEx : Mem := Mem.struct [Pane, Mem.bool, Mem.ptr, PaneExArg]
/-- Record `struct WidgetPos`. -/
def WidgetPos : Mem :=
  Mem.struct [Vec3, Vec3, Vec3, Vec2, Vec2, Mem.float, Vec4, Flags, Flags]
/-- Record `class Widget`: vtable pointer, then the members from
`layout_for_root_widget` to `field_138`. -/
def Widget : Mem :=
  Mem.struct [Mem.ptr, Mem.ptr, Mem.ptr, Mem.u32, Mem.ptr, Array, Mem.ptr, Mem.ptr, Mem.u16,
    Mem.u16, Mem.ptr, Vec4, WidgetPos, WidgetPos, Mem.bool, Mem.bool, Mem.bool, Mem.bool,
    Matrix34, Matrix23, Vec4, Mem.ptr]
/-- Record `class LayoutBase`: vtable pointer, then the members from `cl` to `name`. -/
def LayoutBase : Mem :=
  Mem.struct [Mem.ptr, Mem.ptr, Widget, Array, Array, Array, Array, Mem.u8, Mem.ptr]
/-- Record `class Layout : public LayoutBase`. -/
def Layout : Mem := Mem.struct [LayoutBase, Mem.ptr]

end layout

/-! ## Bit-level facts about the flag word -/

theorem Flag.val_eq_two_pow (v : Flag) : v.val = 2 ^ v.bit.val := by
  cases v <;> rfl

theorem Flag.bit_injective {v w : Flag} (h : v.bit = w.bit) : v = w := by
  revert h; cases v <;> cases w <;> decide

theorem and_two_pow_bne_zero (x k : Nat) : ((x &&& 2 ^ k) != 0) = x.testBit k := by
  cases h : x.testBit k
  · have : x &&& 2 ^ k = 0 := by
      apply Nat.eq_of_testBit_eq
      intro i
      simp only [Nat.testBit_and, Nat.testBit_two_pow, Nat.zero_testBit]
      by_cases hki : k = i
      · subst hki; simp [h]
      · simp [hki]
    simp [this]
  · have hb : (x &&& 2 ^ k).testBit k = true := by
      simp [Nat.testBit_and, Nat.testBit_two_pow, h]
    have : x &&& 2 ^ k ≠ 0 := by
      intro h0
      rw [h0] at hb
      simp at hb
    simpa using this

theorem testBit_u32Not (x : Nat) (i : Fin 32) : (u32Not x).testBit i.val = !x.testBit i.val := by
  have h : (0xFFFFFFFF : Nat) = 2 ^ 32 - 1 := by norm_num
  unfold u32Not
  rw [Nat.testBit_mod_two_pow, Nat.testBit_xor, h, Nat.testBit_two_pow_sub_one]
  simp [i.isLt]

namespace Flags

theorem IsSet_eq_testBit (f : Flags) (v : Flag) : f.IsSet v = f.testBit v.bit := by
  unfold IsSet testBit
  rw [Flag.val_eq_two_pow, and_two_pow_bne_zero]

theorem testBit_Set (f : Flags) (v : Flag) (i : Fin 32) :
    (f.Set v).testBit i = (f.testBit i || decide (v.bit = i)) := by
  unfold Set testBit
  simp only [Nat.testBit_mod_two_pow, Nat.testBit_or, Flag.val_eq_two_pow, Nat.testBit_two_pow,
    i.isLt, decide_True, Bool.true_and, Fin.ext_iff]

theorem testBit_Clear (f : Flags) (v : Flag) (i : Fin 32) :
    (f.Clear v).testBit i = (f.testBit i && !decide (v.bit = i)) := by
  unfold Clear testBit
  simp only [Nat.testBit_mod_two_pow, Nat.testBit_and, testBit_u32Not, Flag.val_eq_two_pow,
    Nat.testBit_two_pow, i.isLt, decide_True, Bool.true_and, Fin.ext_iff]

theorem testBit_SetTo (f : Flags) (v : Flag) (c : Bool) (i : Fin 32) :
    (f.SetTo v c).testBit i = if v.bit = i then c else f.testBit i := by
  unfold SetTo
  cases c <;> by_cases h : v.bit = i <;> simp [testBit_Set, testBit_Clear, h]

theorem IsSet_Set (f : Flags) (v w : Flag) :
    (f.Set v).IsSet w = (f.IsSet w || decide (v = w)) := by
  simp only [IsSet_eq_testBit, testBit_Set]
  by_cases h : v = w
  · simp [h]
  · have : v.bit ≠ w.bit := fun hb => h (Flag.bit_injective hb)
    simp [h, this]

theorem IsSet_SetTo (f : Flags) (v w : Flag) (c : Bool) :
    (f.SetTo v c).IsSet w = if v = w then c else f.IsSet w := by
  simp only [IsSet_eq_testBit, testBit_SetTo]
  by_cases h : v = w
  · simp [h]
  · have : v.bit ≠ w.bit := fun hb => h (Flag.bit_injective hb)
    simp [h, this]

end Flags

namespace WidgetPos

/-! ## The four operations, field by field -/

theorem SetVisible_of_eq (s : WidgetPos) (v : Bool) (h : s.flags.IsSet Flag.Visible = v) :
    s.SetVisible v = s := by
  simp [SetVisible, h]

theorem SetVisible_of_ne (s : WidgetPos) (v : Bool) (h : s.flags.IsSet Flag.Visible ≠ v) :
    s.SetVisible v =
      { s with
        flags := (s.flags.SetTo Flag.Visible v).Set Flag.Visible2
        active_flags := s.active_flags.SetTo Flag.Visible2 (v == true) } := by
  simp [SetVisible, ValueChanged, h]

theorem SetOpacity_of_eq (s : WidgetPos) (x : F32) (h : (s.color.get 3 == x) = true) :
    s.SetOpacity x = s := by
  simp [SetOpacity, h]

theorem SetOpacity_of_ne (s : WidgetPos) (x : F32) (h : (s.color.get 3 == x) = false) :
    s.SetOpacity x =
      { s with
        color := s.color.set 3 x
        flags := s.flags.Set Flag.DefaultOpacity
        active_flags := s.active_flags.SetTo Flag.DefaultOpacity (x == F32.one) } := by
  simp [SetOpacity, ValueChanged, h]

theorem TranslateChanged_eq (s : WidgetPos) :
    s.TranslateChanged =
      { s with
        flags := ((s.flags.Set Flag.DefaultTranslateX).Set Flag.DefaultTranslateY).Set
          Flag.DefaultTranslateZ
        active_flags :=
          ((s.active_flags.SetTo Flag.DefaultTranslateX (s.translate.x == F32.one)).SetTo
            Flag.DefaultTranslateY (s.translate.y == F32.one)).SetTo
            Flag.DefaultTranslateZ (s.translate.z == F32.one) } := rfl

theorem ScaleChanged_eq (s : WidgetPos) :
    s.ScaleChanged =
      { s with
        flags := ((s.flags.Set Flag.DefaultScaleX).Set Flag.DefaultScaleY).Set Flag.DefaultScaleZ
        active_flags :=
          ((s.active_flags.SetTo Flag.DefaultScaleX (s.scale.x == F32.one)).SetTo
            Flag.DefaultScaleY (s.scale.y == F32.one)).SetTo
            Flag.DefaultScaleZ (s.scale.z == F32.one) } := rfl

theorem get_set_three (c : Vec4) (x : F32) : (c.set 3 x).get 3 = x := rfl

end WidgetPos

theorem F32.feq_self (x : F32) (hx : x.isNaN = false) : (x == x) = true := by
  show F32.feq x x = true
  simp [F32.feq, F32.sameBits, hx]

/-! ## Claims -/

/-- C1 (the code departs from the claim). `TranslateChanged()` sets each
at-default bit DefaultTranslateX/Y/Z of `active_flags` exactly when the axis
compares equal to `1.0f`, not to the documented translate default 0: after the
translate vector has been written directly to (0, 0, 0) every axis compares
equal to `0.0f`, and yet none of the three at-default bits is set. -/
theorem TranslateChanged_zero_not_flagged (s : WidgetPos) :
    (s.TranslateChanged.active_flags.IsSet Flag.DefaultTranslateX = (s.translate.x == F32.one) ∧
        s.TranslateChanged.active_flags.IsSet Flag.DefaultTranslateY =
          (s.translate.y == F32.one) ∧
        s.TranslateChanged.active_flags.IsSet Flag.DefaultTranslateZ =
          (s.translate.z == F32.one)) ∧
      (let t := (s.writeTranslate ⟨F32.zero, F32.zero, F32.zero⟩).TranslateChanged
      ((t.translate.x == F32.zero) = true ∧ (t.translate.y == F32.zero) = true ∧
          (t.translate.z == F32.zero) = true) ∧
        t.active_flags.IsSet Flag.DefaultTranslateX = false ∧
        t.active_flags.IsSet Flag.DefaultTranslateY = false ∧
        t.active_flags.IsSet Flag.DefaultTranslateZ = false) := by
  have h : (F32.zero == F32.one) = false := by decide
  have h0 : (F32.zero == F32.zero) = true := by decide
  constructor
  · simp [WidgetPos.TranslateChanged_eq, Flags.IsSet_SetTo]
  · simp [WidgetPos.TranslateChanged_eq, WidgetPos.writeTranslate, Flags.IsSet_SetTo, h, h0]

/-- C2, counterexample. In the state `shownAtRest` (visible, opacity 1, no
touched bit set) the calls `SetVisible(true)` and `SetOpacity(1.0f)` carry the
current value, and after them the touched bits Visible2 and DefaultOpacity of
`flags` are still clear. -/
theorem SetVisible_SetOpacity_same_value_not_touched :
    (WidgetPos.shownAtRest.SetVisible true).flags.IsSet Flag.Visible2 = false ∧
      (WidgetPos.shownAtRest.SetOpacity F32.one).flags.IsSet Flag.DefaultOpacity = false := by
  decide

/-- C2, amended. A setter call whose argument differs from the current value
updates both flag words together: after `SetVisible(v)` the touched bit
Visible2 is set in `flags` and the at-default bit Visible2 of `active_flags`
equals `v == true`; after `SetOpacity(x)` the touched bit DefaultOpacity is set
in `flags` and the at-default bit DefaultOpacity of `active_flags` equals
`x == 1.0f`. A call whose argument equals the current value leaves both flag
words as they were. -/
theorem setters_update_both_flag_words (s : WidgetPos) (v : Bool) (x : F32) :
    (s.flags.IsSet Flag.Visible ≠ v →
        (s.SetVisible v).flags.IsSet Flag.Visible2 = true ∧
          (s.SetVisible v).active_flags.IsSet Flag.Visible2 = (v == true)) ∧
      ((s.color.get 3 == x) = false →
        (s.SetOpacity x).flags.IsSet Flag.DefaultOpacity = true ∧
          (s.SetOpacity x).active_flags.IsSet Flag.DefaultOpacity = (x == F32.one)) ∧
      (s.flags.IsSet Flag.Visible = v →
        (s.SetVisible v).flags = s.flags ∧ (s.SetVisible v).active_flags = s.active_flags) ∧
      ((s.color.get 3 == x) = true →
        (s.SetOpacity x).flags = s.flags ∧ (s.SetOpacity x).active_flags = s.active_flags) := by
  refine ⟨fun h => ?_, fun h => ?_, fun h => ?_, fun h => ?_⟩
  · rw [WidgetPos.SetVisible_of_ne s v h]
    simp [Flags.IsSet_Set, Flags.IsSet_SetTo]
  · rw [WidgetPos.SetOpacity_of_ne s x h]
    simp [Flags.IsSet_Set, Flags.IsSet_SetTo]
  · rw [WidgetPos.SetVisible_of_eq s v h]
    exact ⟨rfl, rfl⟩
  · rw [WidgetPos.SetOpacity_of_eq s x h]
    exact ⟨rfl, rfl⟩

/-- C2, amended, at concrete inputs: hiding the visible state `shownAtRest`
and setting its opacity to 0.5 both change the value. -/
theorem setters_update_both_flag_words_witness :
    ((WidgetPos.shownAtRest.SetVisible false).flags.IsSet Flag.Visible2 = true ∧
        (WidgetPos.shownAtRest.SetVisible false).active_flags.IsSet Flag.Visible2 =
          (false == true)) ∧
      ((WidgetPos.shownAtRest.SetOpacity F32.half).flags.IsSet Flag.DefaultOpacity = true ∧
        (WidgetPos.shownAtRest.SetOpacity F32.half).active_flags.IsSet Flag.DefaultOpacity =
          (F32.half == F32.one)) :=
  ⟨(setters_update_both_flag_words WidgetPos.shownAtRest false F32.half).1 (by decide),
    (setters_update_both_flag_words WidgetPos.shownAtRest false F32.half).2.1 (by decide)⟩

/-- C4. `SetVisible(v)`: when `v` equals the current visibility (bit Visible
of `flags`) the state is returned unchanged; otherwise bit Visible of `flags`
becomes `v`, bit Visible2 of `flags` is set, and bit Visible2 of
`active_flags` is set exactly when `v` is true. In both cases bit Visible of
`flags` equals `v` afterwards. -/
theorem SetVisible_spec (s : WidgetPos) (v : Bool) :
    (s.flags.IsSet Flag.Visible = v → s.SetVisible v = s) ∧
      (s.flags.IsSet Flag.Visible ≠ v →
        (s.SetVisible v).flags.IsSet Flag.Visible = v ∧
          (s.SetVisible v).flags.IsSet Flag.Visible2 = true ∧
          ((s.SetVisible v).active_flags.IsSet Flag.Visible2 = true ↔ v = true)) ∧
      (s.SetVisible v).flags.IsSet Flag.Visible = v := by
  have hne : s.flags.IsSet Flag.Visible ≠ v →
      (s.SetVisible v).flags.IsSet Flag.Visible = v ∧
        (s.SetVisible v).flags.IsSet Flag.Visible2 = true ∧
        ((s.SetVisible v).active_flags.IsSet Flag.Visible2 = true ↔ v = true) := by
    intro h
    rw [WidgetPos.SetVisible_of_ne s v h]
    simp [Flags.IsSet_Set, Flags.IsSet_SetTo]
  refine ⟨WidgetPos.SetVisible_of_eq s v, hne, ?_⟩
  by_cases h : s.flags.IsSet Flag.Visible = v
  · rw [WidgetPos.SetVisible_of_eq s v h]; exact h
  · exact (hne h).1

/-- C4 at concrete inputs: showing the already visible state `shownAtRest`
is a no-op, hiding it is an update. -/
theorem SetVisible_spec_witness :
    WidgetPos.shownAtRest.SetVisible true = WidgetPos.shownAtRest ∧
      ((WidgetPos.shownAtRest.SetVisible false).flags.IsSet Flag.Visible = false ∧
        (WidgetPos.shownAtRest.SetVisible false).flags.IsSet Flag.Visible2 = true ∧
        ((WidgetPos.shownAtRest.SetVisible false).active_flags.IsSet Flag.Visible2 = true ↔
          false = true)) :=
  ⟨(SetVisible_spec WidgetPos.shownAtRest true).1 (by decide),
    (SetVisible_spec WidgetPos.shownAtRest false).2.1 (by decide)⟩

/-- C5, counterexample. `SetOpacity` with a NaN argument on the state
`shownAtRest` takes the update branch and stores the NaN, and afterwards
`color[3] == x` is false, a NaN comparing unequal to itself. Likewise, when
`color[3]` already holds that very NaN the call is not a no-op: the untouched
bit DefaultOpacity of `flags` becomes set. -/
theorem SetOpacity_nan_not_equal_afterwards :
    (F32.sameBits ((WidgetPos.shownAtRest.SetOpacity F32.qnan).color.get 3) F32.qnan = true ∧
        ((WidgetPos.shownAtRest.SetOpacity F32.qnan).color.get 3 == F32.qnan) = false) ∧
      ({ WidgetPos.shownAtRest with
          color := WidgetPos.shownAtRest.color.set 3 F32.qnan }.flags.IsSet
          Flag.DefaultOpacity = false ∧
        ({ WidgetPos.shownAtRest with
          color := WidgetPos.shownAtRest.color.set 3 F32.qnan }.SetOpacity F32.qnan).flags.IsSet
          Flag.DefaultOpacity = true) := by
  decide

/-- C5, amended. `SetOpacity(x)` for an opacity `x` that is not a NaN: when
`color[3] == x` holds the state is returned unchanged; otherwise afterwards
`color[3] == x`, bit DefaultOpacity of `flags` is set, and bit DefaultOpacity
of `active_flags` is set exactly when `x == 1.0f`. In both cases
`color[3] == x` afterwards. -/
theorem SetOpacity_spec (s : WidgetPos) (x : F32) (hx : x.isNaN = false) :
    ((s.color.get 3 == x) = true → s.SetOpacity x = s) ∧
      ((s.color.get 3 == x) = false →
        ((s.SetOpacity x).color.get 3 == x) = true ∧
          (s.SetOpacity x).flags.IsSet Flag.DefaultOpacity = true ∧
          ((s.SetOpacity x).active_flags.IsSet Flag.DefaultOpacity = true ↔
            (x == F32.one) = true)) ∧
      ((s.SetOpacity x).color.get 3 == x) = true := by
  have hne : (s.color.get 3 == x) = false →
      ((s.SetOpacity x).color.get 3 == x) = true ∧
        (s.SetOpacity x).flags.IsSet Flag.DefaultOpacity = true ∧
        ((s.SetOpacity x).active_flags.IsSet Flag.DefaultOpacity = true ↔
          (x == F32.one) = true) := by
    intro h
    rw [WidgetPos.SetOpacity_of_ne s x h]
    refine ⟨?_, ?_, ?_⟩
    · exact F32.feq_self x hx
    · simp [Flags.IsSet_Set]
    · simp [Flags.IsSet_SetTo]
  refine ⟨WidgetPos.SetOpacity_of_eq s x, hne, ?_⟩
  cases h : (s.color.get 3 == x)
  · exact (hne h).1
  · rw [WidgetPos.SetOpacity_of_eq s x h]; exact h

/-- C5, amended, at a concrete input: setting the opacity of `shownAtRest`
(opacity 1) to 0.5. -/
theorem SetOpacity_spec_witness :
    F32.half.isNaN = false ∧
      ((WidgetPos.shownAtRest.SetOpacity F32.half).color.get 3 == F32.half) = true ∧
      (WidgetPos.shownAtRest.SetOpacity F32.half).flags.IsSet Flag.DefaultOpacity = true ∧
      ((WidgetPos.shownAtRest.SetOpacity F32.half).active_flags.IsSet Flag.DefaultOpacity
        = true ↔ (F32.half == F32.one) = true) :=
  ⟨by decide, (SetOpacity_spec WidgetPos.shownAtRest F32.half (by decide)).2.1 (by decide)⟩

/-- C6. After `ScaleChanged()` the touched bits DefaultScaleX, DefaultScaleY
and DefaultScaleZ of `flags` are set, each at-default bit DefaultScaleX/Y/Z of
`active_flags` is set exactly when the matching axis of `scale` compares
equal to `1.0f`, and the scale vector is unchanged. -/
theorem ScaleChanged_spec (s : WidgetPos) :
    (s.ScaleChanged.flags.IsSet Flag.DefaultScaleX = true ∧
        s.ScaleChanged.flags.IsSet Flag.DefaultScaleY = true ∧
        s.ScaleChanged.flags.IsSet Flag.DefaultScaleZ = true) ∧
      ((s.ScaleChanged.active_flags.IsSet Flag.DefaultScaleX = true ↔
          (s.ScaleChanged.scale.x == F32.one) = true) ∧
        (s.ScaleChanged.active_flags.IsSet Flag.DefaultScaleY = true ↔
          (s.ScaleChanged.scale.y == F32.one) = true) ∧
        (s.ScaleChanged.active_flags.IsSet Flag.DefaultScaleZ = true ↔
          (s.ScaleChanged.scale.z == F32.one) = true)) ∧
      s.ScaleChanged.scale = s.scale := by
  simp [WidgetPos.ScaleChanged_eq, Flags.IsSet_Set, Flags.IsSet_SetTo]

namespace WidgetPos

/-! ## Single calls: invariant, frame and monotonicity -/

theorem DefaultFlagsOk_SetVisible (s : WidgetPos) (v : Bool) (h : s.DefaultFlagsOk) :
    (s.SetVisible v).DefaultFlagsOk := by
  by_cases hv : s.flags.IsSet Flag.Visible = v
  · rw [SetVisible_of_eq s v hv]; exact h
  · rw [SetVisible_of_ne s v hv]
    obtain ⟨_, h2⟩ := h
    constructor
    · simp [Flags.IsSet_Set, Flags.IsSet_SetTo]
    · simpa [Flags.IsSet_SetTo] using h2

theorem DefaultFlagsOk_SetOpacity (s : WidgetPos) (x : F32) (h : s.DefaultFlagsOk) :
    (s.SetOpacity x).DefaultFlagsOk := by
  cases hx : (s.color.get 3 == x)
  · rw [SetOpacity_of_ne s x hx]
    obtain ⟨h1, _⟩ := h
    constructor
    · simpa [Flags.IsSet_Set, Flags.IsSet_SetTo] using h1
    · simp [Flags.IsSet_SetTo, get_set_three]
  · rw [SetOpacity_of_eq s x hx]; exact h

theorem SetVisible_frame (s : WidgetPos) (v : Bool) :
    s.sameVectors (s.SetVisible v) ∧ (s.SetVisible v).color = s.color ∧
      (∀ i : Fin 32, i ≠ Flag.Visible.bit → i ≠ Flag.Visible2.bit →
        (s.SetVisible v).flags.testBit i = s.flags.testBit i) ∧
      (∀ i : Fin 32, i ≠ Flag.Visible2.bit →
        (s.SetVisible v).active_flags.testBit i = s.active_flags.testBit i) := by
  by_cases hv : s.flags.IsSet Flag.Visible = v
  · rw [SetVisible_of_eq s v hv]
    exact ⟨⟨rfl, rfl, rfl, rfl, rfl, rfl⟩, rfl, fun _ _ _ => rfl, fun _ _ => rfl⟩
  · rw [SetVisible_of_ne s v hv]
    refine ⟨⟨rfl, rfl, rfl, rfl, rfl, rfl⟩, rfl, fun i h0 h17 => ?_, fun i h17 => ?_⟩
    · simp [Flags.testBit_Set, Flags.testBit_SetTo, Ne.symm h0, Ne.symm h17]
    · simp [Flags.testBit_SetTo, Ne.symm h17]

theorem SetOpacity_frame (s : WidgetPos) (x : F32) :
    s.sameVectors (s.SetOpacity x) ∧
      ((s.SetOpacity x).color.get 0 = s.color.get 0 ∧ (s.SetOpacity x).color.get 1 = s.color.get 1 ∧
        (s.SetOpacity x).color.get 2 = s.color.get 2) ∧
      (∀ i : Fin 32, i ≠ Flag.DefaultOpacity.bit →
        (s.SetOpacity x).flags.testBit i = s.flags.testBit i) ∧
      (∀ i : Fin 32, i ≠ Flag.DefaultOpacity.bit →
        (s.SetOpacity x).active_flags.testBit i = s.active_flags.testBit i) := by
  cases hx : (s.color.get 3 == x)
  · rw [SetOpacity_of_ne s x hx]
    refine ⟨⟨rfl, rfl, rfl, rfl, rfl, rfl⟩, ⟨rfl, rfl, rfl⟩, fun i h => ?_, fun i h => ?_⟩
    · simp [Flags.testBit_Set, Ne.symm h]
    · simp [Flags.testBit_SetTo, Ne.symm h]
  · rw [SetOpacity_of_eq s x hx]
    exact ⟨⟨rfl, rfl, rfl, rfl, rfl, rfl⟩, ⟨rfl, rfl, rfl⟩, fun _ _ => rfl, fun _ _ => rfl⟩

theorem TranslateChanged_frame (s : WidgetPos) :
    s.sameVectors s.TranslateChanged ∧ s.TranslateChanged.color = s.color ∧
      (∀ i : Fin 32, i ≠ Flag.DefaultTranslateX.bit → i ≠ Flag.DefaultTranslateY.bit →
        i ≠ Flag.DefaultTranslateZ.bit →
        s.TranslateChanged.flags.testBit i = s.flags.testBit i ∧
          s.TranslateChanged.active_flags.testBit i = s.active_flags.testBit i) := by
  rw [TranslateChanged_eq]
  refine ⟨⟨rfl, rfl, rfl, rfl, rfl, rfl⟩, rfl, fun i hx hy hz => ?_⟩
  simp [Flags.testBit_Set, Flags.testBit_SetTo, Ne.symm hx, Ne.symm hy, Ne.symm hz]

theorem ScaleChanged_frame (s : WidgetPos) :
    s.sameVectors s.ScaleChanged ∧ s.ScaleChanged.color = s.color ∧
      (∀ i : Fin 32, i ≠ Flag.DefaultScaleX.bit → i ≠ Flag.DefaultScaleY.bit →
        i ≠ Flag.DefaultScaleZ.bit →
        s.ScaleChanged.flags.testBit i = s.flags.testBit i ∧
          s.ScaleChanged.active_flags.testBit i = s.active_flags.testBit i) := by
  rw [ScaleChanged_eq]
  refine ⟨⟨rfl, rfl, rfl, rfl, rfl, rfl⟩, rfl, fun i hx hy hz => ?_⟩
  simp [Flags.testBit_Set, Flags.testBit_SetTo, Ne.symm hx, Ne.symm hy, Ne.symm hz]

theorem call_flags_mono (s : WidgetPos) (c : Call) (i : Fin 32) (hi : i ≠ Flag.Visible.bit)
    (h : s.flags.testBit i = true) : (s.call c).flags.testBit i = true := by
  cases c with
  | SetVisible v =>
    show (s.SetVisible v).flags.testBit i = true
    by_cases hv : s.flags.IsSet Flag.Visible = v
    · rw [SetVisible_of_eq s v hv]; exact h
    · rw [SetVisible_of_ne s v hv]
      simp [Flags.testBit_Set, Flags.testBit_SetTo, Ne.symm hi, h]
  | SetOpacity x =>
    show (s.SetOpacity x).flags.testBit i = true
    cases hx : (s.color.get 3 == x)
    · rw [SetOpacity_of_ne s x hx]
      simp [Flags.testBit_Set, h]
    · rw [SetOpacity_of_eq s x hx]; exact h
  | TranslateChanged =>
    show s.TranslateChanged.flags.testBit i = true
    rw [TranslateChanged_eq]
    simp [Flags.testBit_Set, h]
  | ScaleChanged =>
    show s.ScaleChanged.flags.testBit i = true
    rw [ScaleChanged_eq]
    simp [Flags.testBit_Set, h]

theorem run_flags_mono (cs : List Call) (s : WidgetPos) (i : Fin 32)
    (hi : i ≠ Flag.Visible.bit) (h : s.flags.testBit i = true) :
    (s.run cs).flags.testBit i = true := by
  induction cs generalizing s with
  | nil => exact h
  | cons c cs ih => exact ih (s.call c) (call_flags_mono s c i hi h)

theorem run_DefaultFlagsOk (cs : List Call) (s : WidgetPos)
    (hcs : ∀ c ∈ cs, c.isSetter = true) (h : s.DefaultFlagsOk) : (s.run cs).DefaultFlagsOk := by
  induction cs generalizing s with
  | nil => exact h
  | cons c cs ih =>
    have hc : c.isSetter = true := hcs c (List.mem_cons_self c cs)
    have htail : ∀ d ∈ cs, d.isSetter = true := fun d hd => hcs d (List.mem_cons_of_mem c hd)
    apply ih (s.call c) htail
    cases c with
    | SetVisible v => exact DefaultFlagsOk_SetVisible s v h
    | SetOpacity x => exact DefaultFlagsOk_SetOpacity s x h
    | TranslateChanged => simp [Call.isSetter] at hc
    | ScaleChanged => simp [Call.isSetter] at hc

end WidgetPos

/-- C3. Default-flag invariant for visibility and opacity: from any state in
which bit Visible2 of `active_flags` agrees with bit Visible of `flags` and bit
DefaultOpacity of `active_flags` agrees with `color[3] == 1.0f`, every finite
sequence of `SetVisible` and `SetOpacity` calls, whatever their arguments,
ends in a state where both agreements hold again. (The arguments are not
restricted; the statement covers the NaN-free sequences of the claim.) -/
theorem default_flag_invariant (s : WidgetPos) (cs : List Call)
    (hcs : ∀ c ∈ cs, c.isSetter = true)
    (hvis : s.active_flags.IsSet Flag.Visible2 = s.flags.IsSet Flag.Visible)
    (hopa : s.active_flags.IsSet Flag.DefaultOpacity = (s.color.get 3 == F32.one)) :
    (s.run cs).active_flags.IsSet Flag.Visible2 = (s.run cs).flags.IsSet Flag.Visible ∧
      (s.run cs).active_flags.IsSet Flag.DefaultOpacity = ((s.run cs).color.get 3 == F32.one) :=
  WidgetPos.run_DefaultFlagsOk cs s hcs ⟨hvis, hopa⟩

/-- C3 at a concrete input: hide, fade to 0.5, show again, from
`shownAtRest`. -/
theorem default_flag_invariant_witness :
    (WidgetPos.shownAtRest.run
        [Call.SetVisible false, Call.SetOpacity F32.half, Call.SetVisible true]).active_flags.IsSet
        Flag.Visible2 =
      (WidgetPos.shownAtRest.run
        [Call.SetVisible false, Call.SetOpacity F32.half, Call.SetVisible true]).flags.IsSet
        Flag.Visible ∧
    (WidgetPos.shownAtRest.run
        [Call.SetVisible false, Call.SetOpacity F32.half, Call.SetVisible true]).active_flags.IsSet
        Flag.DefaultOpacity =
      ((WidgetPos.shownAtRest.run
        [Call.SetVisible false, Call.SetOpacity F32.half, Call.SetVisible true]).color.get 3 ==
        F32.one) :=
  default_flag_invariant WidgetPos.shownAtRest
    [Call.SetVisible false, Call.SetOpacity F32.half, Call.SetVisible true]
    (by decide) (by decide) (by decide)

/-- C7. Size conformance: laying out each record from its declared members in
declaration order under the 32-bit rules gives Pane=0xC, PaneNull=0x18,
Pane1=0x1C, PaneRect=0x20, TextSprite=0x30C, PaneExArg=0x68, PaneEx=0x7C,
WidgetPos=0x50, Widget=0x13C, LayoutBase=0x16C and Layout=0x170, with
Vec2/Vec3/Vec4 = 8/12/16 bytes and Matrix34/Matrix23 = 48/24 bytes. -/
theorem size_conformance :
    (layout.Vec2.size = 8 ∧ layout.Vec3.size = 12 ∧ layout.Vec4.size = 16 ∧
        layout.Matrix34.size = 48 ∧ layout.Matrix23.size = 24) ∧
      layout.Pane.size = 0xC ∧ layout.PaneNull.size = 0x18 ∧ layout.Pane1.size = 0x1C ∧
      layout.PaneRect.size = 0x20 ∧ layout.TextSprite.size = 0x30C ∧
      layout.PaneExArg.size = 0x68 ∧ layout.PaneEx.size = 0x7C ∧
      layout.WidgetPos.size = 0x50 ∧ layout.Widget.size = 0x13C ∧
      layout.LayoutBase.size = 0x16C ∧ layout.Layout.size = 0x170 := by
  decide

/-- C8. The pane type tag: the eight kinds are encoded Null=0, Type1=1, Rect=2,
Text=3, Pane=4, PaneEx=5, Pane2=6, Pane2Ex=7; the encoding is injective, its
image is exactly the values 0 to 7 (so a tag names a kind if and only if it is
at most 7), and decoding the tag of a kind gives the kind back. -/
theorem PaneType_tag_encoding :
    (PaneType.Null.toU16 = 0 ∧ PaneType.Type1.toU16 = 1 ∧ PaneType.Rect.toU16 = 2 ∧
        PaneType.Text.toU16 = 3 ∧ PaneType.Pane.toU16 = 4 ∧ PaneType.PaneEx.toU16 = 5 ∧
        PaneType.Pane2.toU16 = 6 ∧ PaneType.Pane2Ex.toU16 = 7) ∧
      Function.Injective PaneType.toU16 ∧
      (∀ n : Nat, (∃ t : PaneType, t.toU16 = n) ↔ n ≤ 7) ∧
      (∀ n : Nat, (PaneType.ofU16 n).isSome = true ↔ n ≤ 7) ∧
      (∀ t : PaneType, PaneType.ofU16 t.toU16 = some t) := by
  refine ⟨by decide, ?_, ?_, ?_, ?_⟩
  · intro a b h
    cases a <;> cases b <;> first | rfl | exact absurd h (by decide)
  · intro n
    constructor
    · rintro ⟨t, rfl⟩
      cases t <;> decide
    · intro h
      interval_cases n
      · exact ⟨PaneType.Null, rfl⟩
      · exact ⟨PaneType.Type1, rfl⟩
      · exact ⟨PaneType.Rect, rfl⟩
      · exact ⟨PaneType.Text, rfl⟩
      · exact ⟨PaneType.Pane, rfl⟩
      · exact ⟨PaneType.PaneEx, rfl⟩
      · exact ⟨PaneType.Pane2, rfl⟩
      · exact ⟨PaneType.Pane2Ex, rfl⟩
  · intro n
    constructor
    · intro h
      by_contra hn
      have h8 : ¬ n = 0 ∧ ¬ n = 1 ∧ ¬ n = 2 ∧ ¬ n = 3 ∧ ¬ n = 4 ∧ ¬ n = 5 ∧ ¬ n = 6 ∧ ¬ n = 7 := by
        omega
      obtain ⟨h0, h1, h2, h3, h4, h5, h6, h7⟩ := h8
      simp [PaneType.ofU16, h0, h1, h2, h3, h4, h5, h6, h7] at h
    · intro h
      interval_cases n <;> rfl
  · intro t
    cases t <;> rfl

/-- C9. Frame property: the `WidgetPos::Flag` constants are pairwise-disjoint
single bits, and (i) `SetVisible` changes nothing except bit Visible and bit
Visible2 of `flags` and bit Visible2 of `active_flags`; (ii) `SetOpacity`
changes nothing except `color[3]` and bit DefaultOpacity of `flags` and of
`active_flags`; (iii) `TranslateChanged` changes nothing except the three
DefaultTranslate bits of `flags` and `active_flags`; (iv) `ScaleChanged`
changes nothing except the three DefaultScale bits of `flags` and
`active_flags`. -/
theorem WidgetPos_frame :
    ((∀ f : Flag, f.val = 2 ^ f.bit.val) ∧ (∀ f g : Flag, f ≠ g → f.val &&& g.val = 0)) ∧
      (∀ (s : WidgetPos) (v : Bool),
        s.sameVectors (s.SetVisible v) ∧ (s.SetVisible v).color = s.color ∧
          (∀ i : Fin 32, i ≠ Flag.Visible.bit → i ≠ Flag.Visible2.bit →
            (s.SetVisible v).flags.testBit i = s.flags.testBit i) ∧
          (∀ i : Fin 32, i ≠ Flag.Visible2.bit →
            (s.SetVisible v).active_flags.testBit i = s.active_flags.testBit i)) ∧
      (∀ (s : WidgetPos) (x : F32),
        s.sameVectors (s.SetOpacity x) ∧
          ((s.SetOpacity x).color.get 0 = s.color.get 0 ∧
            (s.SetOpacity x).color.get 1 = s.color.get 1 ∧
            (s.SetOpacity x).color.get 2 = s.color.get 2) ∧
          (∀ i : Fin 32, i ≠ Flag.DefaultOpacity.bit →
            (s.SetOpacity x).flags.testBit i = s.flags.testBit i) ∧
          (∀ i : Fin 32, i ≠ Flag.DefaultOpacity.bit →
            (s.SetOpacity x).active_flags.testBit i = s.active_flags.testBit i)) ∧
      (∀ s : WidgetPos,
        s.sameVectors s.TranslateChanged ∧ s.TranslateChanged.color = s.color ∧
          (∀ i : Fin 32, i ≠ Flag.DefaultTranslateX.bit → i ≠ Flag.DefaultTranslateY.bit →
            i ≠ Flag.DefaultTranslateZ.bit →
            s.TranslateChanged.flags.testBit i = s.flags.testBit i ∧
              s.TranslateChanged.active_flags.testBit i = s.active_flags.testBit i)) ∧
      (∀ s : WidgetPos,
        s.sameVectors s.ScaleChanged ∧ s.ScaleChanged.color = s.color ∧
          (∀ i : Fin 32, i ≠ Flag.DefaultScaleX.bit → i ≠ Flag.DefaultScaleY.bit →
            i ≠ Flag.DefaultScaleZ.bit →
            s.ScaleChanged.flags.testBit i = s.flags.testBit i ∧
              s.ScaleChanged.active_flags.testBit i = s.active_flags.testBit i)) := by
  refine ⟨⟨Flag.val_eq_two_pow, ?_⟩, WidgetPos.SetVisible_frame, WidgetPos.SetOpacity_frame,
    WidgetPos.TranslateChanged_frame, WidgetPos.ScaleChanged_frame⟩
  intro f g h
  cases f <;> cases g <;> first | exact absurd rfl h | decide

/-- C9 at a concrete input: hiding `shownAtRest` leaves bit 5 of `flags`
and bit 26 (DefaultOpacity) of `active_flags` as they were. -/
theorem WidgetPos_frame_witness :
    (WidgetPos.shownAtRest.SetVisible false).flags.testBit 5 =
        WidgetPos.shownAtRest.flags.testBit 5 ∧
      (WidgetPos.shownAtRest.SetVisible false).active_flags.testBit 26 =
        WidgetPos.shownAtRest.active_flags.testBit 26 :=
  ⟨(WidgetPos_frame.2.1 WidgetPos.shownAtRest false).2.2.1 5 (by decide) (by decide),
    (WidgetPos_frame.2.1 WidgetPos.shownAtRest false).2.2.2 26 (by decide)⟩

/-- C10. Touched flags are monotone: along every finite sequence of
`SetVisible`, `SetOpacity`, `TranslateChanged` and `ScaleChanged` calls a bit
of `flags` other than Visible that is set stays set; the Visible bit of
`flags` can be cleared, and at-default bits of `active_flags` can be both
cleared and set. -/
theorem touched_flags_monotone :
    (∀ (s : WidgetPos) (cs : List Call) (i : Fin 32), i ≠ Flag.Visible.bit →
        s.flags.testBit i = true → (s.run cs).flags.testBit i = true) ∧
      (∃ (s : WidgetPos) (c : Call),
        s.flags.IsSet Flag.Visible = true ∧ (s.call c).flags.IsSet Flag.Visible = false) ∧
      (∃ (s : WidgetPos) (c : Call) (f : Flag),
        s.active_flags.IsSet f = true ∧ (s.call c).active_flags.IsSet f = false) ∧
      (∃ (s : WidgetPos) (c : Call) (f : Flag),
        s.active_flags.IsSet f = false ∧ (s.call c).active_flags.IsSet f = true) := by
  refine ⟨fun s cs i hi h => WidgetPos.run_flags_mono cs s i hi h, ?_, ?_, ?_⟩
  · exact ⟨WidgetPos.shownAtRest, Call.SetVisible false, by decide⟩
  · exact ⟨WidgetPos.shownAtRest, Call.SetVisible false, Flag.Visible2, by decide⟩
  · exact ⟨WidgetPos.shownAtRest, Call.ScaleChanged, Flag.DefaultScaleX, by decide⟩

/-- C10 at a concrete input: after hiding `shownAtRest` the touched bit
Visible2 (bit 17) of `flags` is set, and it is still set after showing the
widget again, changing its opacity and re-deriving the translate flags. -/
theorem touched_flags_monotone_witness :
    (((WidgetPos.shownAtRest.SetVisible false).run
      [Call.SetVisible true, Call.SetOpacity F32.half, Call.TranslateChanged]).flags.testBit 17)
      = true :=
  touched_flags_monotone.1 (WidgetPos.shownAtRest.SetVisible false)
    [Call.SetVisible true, Call.SetOpacity F32.half, Call.TranslateChanged] 17
    (by decide) (by decide)

end game.ui
